import Mathlib

/-!
Verification of the realtime-editor client synchronization layer.

Shallow embedding of the connection manager of the repository
(`src/frontend/src/services/websocket.ts`, class `WebSocketService`) and of the
editor-side synchronization controller (`src/components/Editor.tsx`).

The JavaScript runtime is modelled as a single-threaded event system: the
instance fields of the service become a record `SvcState`, each method and each
internal event handler (`onopen`, `onmessage`, `onclose`, `onerror`, the
reconnect timer callback) becomes a pure function on that record, and an
execution is a list of `Ev` events folded over the state with `runEv`.
Promises are modelled by identifiers together with a first-settlement-wins
settlement list, exactly mirroring that a JS promise settles at most once.
-/

namespace RealtimeEditor

/-! WebSocket transport constants (the readyState values of the platform) -/

/-- Constant `WebSocket.CONNECTING`. -/
def wsCONNECTING : Nat := 0
/-- Constant `WebSocket.OPEN`. -/
def wsOPEN : Nat := 1
/-- Constant `WebSocket.CLOSED`. -/
def wsCLOSED : Nat := 3

/-- A live transport object: its current `readyState`, and the identifier of
the promise captured by the `resolve`/`reject` closures that `connect`
installed as the `onopen`/`onerror` handlers of this socket. -/
structure Sock where
  readyState : Nat
  promiseId : Nat
  deriving DecidableEq, Repr

/-- The instance fields of `WebSocketService`, plus ghost bookkeeping that
records externally observable history: `transportsCreated` counts evaluations
of `new WebSocket(url)`, `pendingTimers` holds the delays of reconnect timers
scheduled by `setTimeout` and not yet fired (the source never stores the timer
handle, so nothing in the source can clear them), `closeable` counts created
transport objects whose `close` event has not fired yet (a real socket fires
`close` exactly once, also after a failed establishment or an explicit
`close()` call), and `settlements` records promise settlements in order,
first settlement winning. -/
structure SvcState where
  socket : Option Sock
  reconnectAttempts : Nat
  messageHandlers : List Nat
  connectionPromise : Option Nat
  nextPromiseId : Nat
  transportsCreated : Nat
  pendingTimers : List Nat
  closeable : Nat
  settlements : List (Nat × Bool)
  deriving DecidableEq, Repr

/-- Field `maxReconnectAttempts = 5` in the source. -/
def maxReconnectAttempts : Nat := 5

/-- Field `reconnectDelay = 1000` in the source. -/
def reconnectDelay : Nat := 1000

/-- Getter `isConnected`: `this.socket?.readyState === WebSocket.OPEN`. -/
def isConnected (s : SvcState) : Bool :=
  match s.socket with
  | some sk => sk.readyState == wsOPEN
  | none => false

/-- Settle promise `p` with outcome `ok` (`true` = resolved, `false` =
rejected). A JS promise settles at most once, so a second settlement of the
same identifier is a no-op. -/
def settle (p : Nat) (ok : Bool) (s : SvcState) : SvcState :=
  if s.settlements.any (fun e => e.1 == p) then s
  else { s with settlements := s.settlements ++ [(p, ok)] }

/-- The recorded outcome of promise `p`, if it has settled. -/
def settled (s : SvcState) (p : Nat) : Option Bool :=
  (s.settlements.find? (fun e => e.1 == p)).map (fun e => e.2)

/-- What a call to `connect()` returns to its caller. -/
inductive ConnectResult where
  /-- Case where `isConnected` was true: resolved immediately, no transport touched. -/
  | alreadyConnected : ConnectResult
  /-- Case where `connectionPromise` was non-null: the caller joins the in-flight
  attempt and receives the same pending promise. -/
  | joined : Nat → ConnectResult
  /-- A fresh attempt: a new transport and a new promise were created. -/
  | created : Nat → ConnectResult
  deriving DecidableEq, Repr

/-- Method `connect()` from the source, up to its synchronous effects: the promise
executor runs synchronously and `new WebSocket(url)` is evaluated inside it;
the handlers it installs are modelled as the separate event steps below. -/
def connect (s : SvcState) : SvcState × ConnectResult :=
  if isConnected s then (s, .alreadyConnected)
  else
    match s.connectionPromise with
    | some p => (s, .joined p)
    | none =>
        let p := s.nextPromiseId
        ({ s with
            socket := some ⟨wsCONNECTING, p⟩
            connectionPromise := some p
            nextPromiseId := p + 1
            transportsCreated := s.transportsCreated + 1
            closeable := s.closeable + 1 }, .created p)

/-- Method `attemptReconnect()` from the source: if `reconnectAttempts <
maxReconnectAttempts`, increment the counter, compute `delay = reconnectDelay *
reconnectAttempts` with the incremented value, and `setTimeout` a reconnect at
that delay; otherwise only log. The timer handle is not stored. -/
def attemptReconnect (s : SvcState) : SvcState :=
  if s.reconnectAttempts < maxReconnectAttempts then
    let a := s.reconnectAttempts + 1
    { s with
        reconnectAttempts := a
        pendingTimers := s.pendingTimers ++ [reconnectDelay * a] }
  else s

/-- Method `disconnect()` from the source: if a socket is present, call
`socket.close()` (its `close` event will still fire later; `closeable` is
unchanged) and null the reference; then clear `messageHandlers` and
`connectionPromise`. The source stores no timer handle, so `pendingTimers` is
untouched. -/
def disconnect (s : SvcState) : SvcState :=
  let s1 := match s.socket with
    | some _ => { s with socket := none }
    | none => s
  { s1 with messageHandlers := [], connectionPromise := none }

/-- The events that can reach the service on the single JS task queue. -/
inductive Ev where
  /-- A caller invokes `connect()` (the returned promise is discarded here;
  `connect` itself is used directly where the result matters). -/
  | connectCall : Ev
  /-- The current socket fires `open` (the platform sets `readyState` to
  `OPEN` before dispatching). Handler: `reconnectAttempts = 0`,
  `connectionPromise = null`, `resolve()`. -/
  | openFires : Ev
  /-- The current socket fires `error`. Handler: `connectionPromise = null`,
  `socket = null`, `reject(error)`. -/
  | errorFires : Ev
  /-- A created socket whose `close` has not fired yet fires `close`. The
  handler only touches `this.*` fields, so it acts on the current state no
  matter which socket the event belongs to: `connectionPromise = null`,
  `socket = null`, `attemptReconnect()`. -/
  | closeFires : Ev
  /-- A pending reconnect timer fires: its callback is
  `this.connect().catch(...)` (rejection swallowed). -/
  | timerFires : Ev
  /-- A caller invokes `disconnect()`. -/
  | disconnectCall : Ev
  deriving DecidableEq, Repr

/-- One event step of the service. Events that cannot occur in the state
(no socket for `open`/`error`, no close-pending socket, no pending timer)
leave the state unchanged. -/
def stepEv (s : SvcState) : Ev → SvcState
  | .connectCall => (connect s).1
  | .openFires =>
      match s.socket with
      | some sk =>
          settle sk.promiseId true
            { s with
                socket := some ⟨wsOPEN, sk.promiseId⟩
                reconnectAttempts := 0
                connectionPromise := none }
      | none => s
  | .errorFires =>
      match s.socket with
      | some sk =>
          settle sk.promiseId false
            { s with socket := none, connectionPromise := none }
      | none => s
  | .closeFires =>
      if s.closeable > 0 then
        attemptReconnect
          { s with
              socket := none
              connectionPromise := none
              closeable := s.closeable - 1 }
      else s
  | .timerFires =>
      match s.pendingTimers with
      | [] => s
      | _ :: rest => (connect { s with pendingTimers := rest }).1
  | .disconnectCall => disconnect s

/-- Run a list of events. -/
def runEv (s : SvcState) (es : List Ev) : SvcState :=
  es.foldl stepEv s

/-- The fresh service state: `new WebSocketService(url)`. -/
def init0 : SvcState :=
  { socket := none
    reconnectAttempts := 0
    messageHandlers := []
    connectionPromise := none
    nextPromiseId := 0
    transportsCreated := 0
    pendingTimers := []
    closeable := 0
    settlements := [] }

/-- Iterated `connect()` calls: `n` callers arriving back-to-back on the task
queue while no transport event fires in between, collecting what each caller
is returned. -/
def connectN : SvcState → Nat → SvcState × List ConnectResult
  | s, 0 => (s, [])
  | s, n + 1 =>
      let r := connect s
      let rest := connectN r.1 n
      (rest.1, r.2 :: rest.2)

/-! ## Wire messages, `send`, and the `readyState` getter -/

/-- The `type` field of the `WebSocketMessage` interface. -/
inductive MsgType where
  | content_update | cursor_position | user_joined | user_left | user_count_update
  deriving DecidableEq, Repr

/-- A well-formed wire message: `{ type, payload }`, where only the payload
fields the client reads are modelled (`payload.content` for content updates,
`payload.count` for user-count updates). -/
structure WSMessage where
  type : MsgType
  content : String
  count : Nat
  deriving DecidableEq, Repr

/-- Method `send(message)` from the source: if `isConnected`, transmit the serialized
message on the socket; otherwise `console.warn` and drop it. The return value
is `(state after the call, transmitted message if any, whether the drop was
logged)`; neither branch assigns to any instance field. -/
def send (s : SvcState) (m : WSMessage) : SvcState × Option WSMessage × Bool :=
  if isConnected s then (s, some m, false) else (s, none, true)

/-- Getter `readyState`: `this.socket?.readyState || WebSocket.CLOSED`. The
JS `||` operator returns its right operand when the left is falsy, and both
`undefined` (no socket) and the number `0` (`WebSocket.CONNECTING`) are
falsy. -/
def readyStateGetter (s : SvcState) : Nat :=
  match s.socket with
  | none => wsCLOSED
  | some sk => if sk.readyState = 0 then wsCLOSED else sk.readyState

/-! ## Handler registration and dispatch

`onMessage(handler)` pushes the handler onto `messageHandlers` and returns a
capability `() => { this.messageHandlers = this.messageHandlers.filter(h => h
!== handler) }`. Handlers are modelled by identifiers; registration order is
list order. `notifyHandlers` runs `this.messageHandlers.forEach(handler =>
handler(message))`: the receiver of `forEach` is evaluated once, to the array
object current when dispatch starts, and the capability *reassigns* the field
to a freshly filtered array rather than mutating the old one, so the ongoing
`forEach` keeps iterating the array as it was at dispatch start.

The effect of a handler on the registry is abstracted by `removes : Nat → List
Nat`: when handler `h` runs, it invokes the unregister capabilities of the
handlers in `removes h`, in order. -/

/-- The unregister capability returned by `onMessage` for handler `h`:
`this.messageHandlers = this.messageHandlers.filter(x => x !== h)`. -/
def unregister (h : Nat) (l : List Nat) : List Nat :=
  l.filter (fun x => x ≠ h)

/-- The dispatch loop of `notifyHandlers`: the first argument is the rest of
the snapshot the `forEach` is iterating, the second is the current value of
the `messageHandlers` field. Returns the invocation sequence of the pass and
the final registry. -/
def dispatchFrom (removes : Nat → List Nat) :
    List Nat → List Nat → List Nat × List Nat
  | [], cur => ([], cur)
  | h :: rest, cur =>
      let cur2 := (removes h).foldl (fun l r => unregister r l) cur
      let res := dispatchFrom removes rest cur2
      (h :: res.1, res.2)

/-- Method `notifyHandlers(message)` restricted to its registry effects: dispatch
over a snapshot of the registry taken when the message arrives. -/
def dispatch (removes : Nat → List Nat) (handlers : List Nat) :
    List Nat × List Nat :=
  dispatchFrom removes handlers handlers

/-! ## Inbound data and the `onmessage` handler -/

/-- What `JSON.parse` can make of an inbound wire datum. -/
inductive Json where
  /-- A JSON number. -/
  | jnum : Int → Json
  /-- A JSON string. -/
  | jstr : String → Json
  /-- An object carrying `type` and `payload` fields. -/
  | jenvelope : String → Json → Json
  /-- Some other JSON value (other object shapes, arrays, booleans, null). -/
  | jother : Json
  deriving DecidableEq, Repr

/-- An inbound wire datum, classified by whether `JSON.parse` succeeds on it:
`invalid` is data on which `JSON.parse` throws a `SyntaxError`. -/
inductive InData where
  | invalid : InData
  | valid : Json → InData
  deriving DecidableEq, Repr

/-- The five `type` strings of the expected message envelope. -/
def kindStrings : List String :=
  ["content_update", "cursor_position", "user_joined", "user_left",
   "user_count_update"]

/-- Whether a parsed JSON value actually has the shape of the expected
`WebSocketMessage` envelope. The source never checks this at runtime: the
result of `JSON.parse` is only type-asserted. -/
def isExpectedEnvelope : Json → Bool
  | .jenvelope t _ => kindStrings.contains t
  | _ => false

/-- The `onmessage` handler of the socket from the source: `try \x7b const message =
JSON.parse(event.data); this.notifyHandlers(message); } catch (error) {
console.error(...) }`. Returns the list of (handler, delivered value)
invocations and whether a parse error was logged. Total — the `catch`
confines the `JSON.parse` exception, so nothing escapes the receive path. -/
def onmessageHandler (handlers : List Nat) (d : InData) :
    List (Nat × Json) × Bool :=
  match d with
  | .invalid => ([], true)
  | .valid j => (handlers.map (fun h => (h, j)), false)

/-- Receive a sequence of inbound data with a fixed registry, concatenating
the handler invocations that each datum produces. -/
def receiveAll (handlers : List Nat) (ds : List InData) : List (Nat × Json) :=
  ds.foldl (fun acc d => acc ++ (onmessageHandler handlers d).1) []

/-! ## The editor-side synchronization controller (`Editor.tsx`)

State of the `Editor` component: the controlled buffer `content`, the
presence count `usersCount`, the ref `isRemoteUpdate` (the origin flag), and a
ghost count of pending 100 ms `setTimeout` callbacks that will clear the
flag. -/

structure EdState where
  content : String
  usersCount : Nat
  isRemoteUpdate : Bool
  clearFlagTimers : Nat
  deriving DecidableEq, Repr

/-- The fresh state of the editor. -/
def edInit : EdState :=
  { content := "", usersCount := 1, isRemoteUpdate := false,
    clearFlagTimers := 0 }

/-- Callback `handleWebSocketMessage` from the source: on `content_update`, set
`isRemoteUpdate.current = true`, `setContent(message.payload.content)`, and
schedule `setTimeout(() => { isRemoteUpdate.current = false }, 100)`; on
`user_count_update`, `setUsersCount(message.payload.count)`; `user_joined`
and everything else only log. -/
def handleWebSocketMessage (s : EdState) (m : WSMessage) : EdState :=
  match m.type with
  | .content_update =>
      { s with
          isRemoteUpdate := true
          content := m.content
          clearFlagTimers := s.clearFlagTimers + 1 }
  | .user_count_update => { s with usersCount := m.count }
  | _ => s

/-- One pending 100 ms timeout fires: `isRemoteUpdate.current = false`. -/
def clearFlagFires (s : EdState) : EdState :=
  { s with isRemoteUpdate := false, clearFlagTimers := s.clearFlagTimers - 1 }

/-- Callback `handleContentChange` from the source: `setContent(newContent)`, then
send `{ type: content_update, payload: { content: newContent } }` only if
`!isRemoteUpdate.current && websocketService.isConnected`. Returns the new
editor state and the outbound message, if any. -/
def handleContentChange (s : EdState) (connected : Bool) (newContent : String) :
    EdState × Option WSMessage :=
  let s1 := { s with content := newContent }
  if ¬ s.isRemoteUpdate ∧ connected then
    (s1, some ⟨.content_update, newContent, 0⟩)
  else (s1, none)

/-! ## Helper lemmas -/

/-- Running `find?` over an appended fresh settlement: if no entry of `l` matches
`p`, the appended entry is found. -/
theorem find?_settlement_append (l : List (Nat × Bool)) (p : Nat) (b : Bool)
    (h : l.any (fun e => e.1 == p) = false) :
    (l ++ [(p, b)]).find? (fun e => e.1 == p) = some (p, b) := by
  induction l with
  | nil => simp
  | cons a t ih =>
      simp only [List.any_cons, Bool.or_eq_false_iff] at h
      simp only [List.cons_append, List.find?_cons, h.1]
      exact ih h.2

/-- Settling a promise that has not settled yet records exactly that
outcome. -/
theorem settled_settle_fresh (s : SvcState) (p : Nat) (b : Bool)
    (h : s.settlements.any (fun e => e.1 == p) = false) :
    settled (settle p b s) p = some b := by
  simp only [settle, settled, h, Bool.false_eq_true, if_false]
  simp [find?_settlement_append s.settlements p b h]

/-- A `connect()` call that joins an in-flight attempt changes nothing and
returns the pending promise. -/
theorem connect_joined (s : SvcState) (p : Nat)
    (h1 : isConnected s = false) (h2 : s.connectionPromise = some p) :
    connect s = (s, .joined p) := by
  simp [connect, h1, h2]

/-- Iterated `connect()` calls in the joining state all return the same
pending promise and leave the state unchanged. -/
theorem connectN_joined (m : Nat) (s : SvcState) (p : Nat)
    (h1 : isConnected s = false) (h2 : s.connectionPromise = some p) :
    connectN s m = (s, List.replicate m (.joined p)) := by
  induction m with
  | zero => simp [connectN]
  | succ k ih => simp [connectN, connect_joined s p h1 h2, ih, List.replicate]

/-- The invocation sequence of a dispatch pass is exactly the snapshot the
pass iterates, whatever removals the handlers perform. -/
theorem dispatchFrom_fst (removes : Nat → List Nat) (snap : List Nat) :
    ∀ cur, (dispatchFrom removes snap cur).1 = snap := by
  induction snap with
  | nil => intro cur; rfl
  | cons h rest ih => intro cur; simp [dispatchFrom, ih]

/-! ## Claim theorems -/

/-- Claim C7: a `send(message)` call while the connection is not `Open`
transmits nothing, throws nothing and returns no error (the function is total
and its result carries no error), drops the message with only a log report
(`console.warn`, the `true` component), leaves every instance field of the
manager unchanged, and in particular buffers nothing for later replay. -/
theorem send_not_open_is_noop (s : SvcState) (m : WSMessage)
    (h : isConnected s = false) :
    send s m = (s, none, true) := by
  simp [send, h]

/-- Witness for C7 at a concrete disconnected state and message. -/
theorem send_not_open_is_noop_witness :
    send init0 ⟨MsgType.content_update, "hello", 0⟩ =
      (init0, none, true) :=
  send_not_open_is_noop init0 ⟨MsgType.content_update, "hello", 0⟩ rfl

/-- Claim C9: `disconnect()` is idempotent — a second consecutive call
produces no error (the function is total) and yields exactly the state the
first call yielded, and after either call there is no live transport, the
listener registry is empty, and no pending connection outcome remains. -/
theorem disconnect_idempotent (s : SvcState) :
    disconnect (disconnect s) = disconnect s ∧
    (disconnect s).socket = none ∧
    (disconnect s).messageHandlers = [] ∧
    (disconnect s).connectionPromise = none := by
  cases hs : s.socket <;> simp [disconnect, hs]

/-- Claim C10: the public `readyState` getter evaluates `socket?.readyState
|| WebSocket.CLOSED`, and the number `0` (`WebSocket.CONNECTING`) is falsy in
JS, so with a live transport in the `CONNECTING` state the getter reports
`WebSocket.CLOSED` (3) instead of 0; it reports the true `readyState`
whenever that value is non-zero, and `CLOSED` when no transport exists. -/
theorem readyState_zero_reported_closed (s : SvcState) (sk : Sock) :
    (s.socket = some sk → sk.readyState = wsCONNECTING →
      readyStateGetter s = wsCLOSED) ∧
    (s.socket = some sk → sk.readyState ≠ 0 →
      readyStateGetter s = sk.readyState) ∧
    (s.socket = none → readyStateGetter s = wsCLOSED) := by
  refine ⟨fun h1 h2 => ?_, fun h1 h2 => ?_, fun h1 => ?_⟩ <;>
    simp [readyStateGetter, h1, wsCONNECTING, wsCLOSED] at *
  · simp [h2]
  · simp [h2]

/-- Witness for C10: a socket in `CONNECTING` (readyState 0) is reported as
`CLOSED` (3), an open socket is reported truthfully, no socket gives 3. -/
theorem readyState_zero_reported_closed_witness :
    readyStateGetter { init0 with socket := some ⟨0, 0⟩ } = 3 ∧
    readyStateGetter { init0 with socket := some ⟨1, 0⟩ } = 1 ∧
    readyStateGetter init0 = 3 :=
  ⟨(readyState_zero_reported_closed { init0 with socket := some ⟨0, 0⟩ }
      ⟨0, 0⟩).1 rfl rfl,
   (readyState_zero_reported_closed { init0 with socket := some ⟨1, 0⟩ }
      ⟨1, 0⟩).2.1 rfl (by decide),
   (readyState_zero_reported_closed init0 ⟨0, 0⟩).2.2 rfl⟩

/-- Claim C8, counterexample: the receive path only catches `JSON.parse`
failures and never validates the envelope shape, so a datum that is valid
JSON but is not the expected message envelope — here the bare number `42` —
is still delivered to every registered handler rather than being dropped. -/
theorem non_envelope_json_dispatched :
    isExpectedEnvelope (Json.jnum 42) = false ∧
    onmessageHandler [0] (InData.valid (Json.jnum 42)) =
      ([(0, Json.jnum 42)], false) :=
  ⟨rfl, rfl⟩

/-- Claim C8, amended: for every inbound wire datum on which `JSON.parse`
throws, the datum is dropped and logged, no registered handler is invoked for
it, no exception escapes the receive path (the handler is a total function),
and subsequent data are still dispatched normally; however, a datum that
parses as JSON is delivered to all handlers even when it does not match the
expected envelope — the envelope shape is never checked at runtime. -/
theorem invalid_json_dropped_and_logged (handlers : List Nat)
    (ds : List InData) (j : Json) :
    onmessageHandler handlers InData.invalid = ([], true) ∧
    receiveAll handlers (InData.invalid :: ds) = receiveAll handlers ds ∧
    (onmessageHandler handlers (InData.valid j)).1 =
      handlers.map (fun h => (h, j)) :=
  ⟨rfl, rfl, rfl⟩

/-- Claim C6, counterexample: handler 0 removes handler 1 during the pass
(the post-pass registry `[0]` shows the removal took effect), yet the pass
still invokes handler 1 afterwards — `forEach` iterates the array object
captured at dispatch start, and the unregister capability only reassigns the
field to a filtered copy — so a handler removed during the dispatch pass IS
invoked again within that same pass. -/
theorem removed_mid_pass_still_invoked :
    dispatch (fun h => if h = 0 then [1] else []) [0, 1] = ([0, 1], [0]) :=
  rfl

/-- Claim C6, amended: for every dispatched message, registered handlers are
invoked in registration order over the stable snapshot of the registry taken
when dispatch starts, so a handler removing itself or another handler
mid-dispatch never corrupts the in-progress pass (each snapshot handler is
invoked exactly once, in order) — but a removal during the pass does not
affect that pass: the removed handler is still invoked in it, and is only
excluded from subsequent passes. -/
theorem dispatch_snapshot_order (removes : Nat → List Nat) (cur : List Nat) :
    (dispatch removes cur).1 = cur ∧
    (∀ h, h ∉ (dispatch removes cur).2 →
      h ∉ (dispatch removes ((dispatch removes cur).2)).1) := by
  constructor
  · exact dispatchFrom_fst removes cur cur
  · intro h hh
    rw [dispatch, dispatchFrom_fst]
    exact hh

/-- Witness for C6 (amended): handler 1, removed during the first pass, does
not appear in the invocation sequence of the following pass. -/
theorem dispatch_snapshot_order_witness :
    1 ∉ (dispatch (fun h => if h = 0 then [1] else [])
      ((dispatch (fun h => if h = 0 then [1] else []) [0, 1]).2)).1 :=
  (dispatch_snapshot_order (fun h => if h = 0 then [1] else []) [0, 1]).2
    1 (by decide)

/-- Claim C1 (code bug): `disconnect()` does not stop automatic reconnection.
The source never stores the `setTimeout` handle, so `disconnect()` cannot
cancel a pending scheduled reconnection: after connect, open, an unexpected
close (which schedules a 1000 ms reconnect) and then `disconnect()`, the
timer is still pending and, when it fires, a second transport is created
with no intervening `connect()` call. Moreover the `close` event caused by
the `socket.close()` inside `disconnect()` runs the `onclose` handler, which
itself calls `attemptReconnect()` and schedules a new attempt. -/
theorem disconnect_does_not_stop_reconnection :
    (runEv init0 [.connectCall, .openFires, .closeFires,
      .disconnectCall]).pendingTimers = [1000] ∧
    (runEv init0 [.connectCall, .openFires, .closeFires,
      .disconnectCall]).transportsCreated = 1 ∧
    (runEv init0 [.connectCall, .openFires, .closeFires, .disconnectCall,
      .timerFires]).transportsCreated = 2 ∧
    (runEv init0 [.connectCall, .openFires, .disconnectCall,
      .closeFires]).pendingTimers = [1000] ∧
    (runEv init0 [.connectCall, .openFires, .disconnectCall, .closeFires,
      .timerFires]).transportsCreated = 2 :=
  ⟨rfl, rfl, rfl, rfl, rfl⟩

/-- Claim C4, counterexample: a failed establishment also triggers automatic
reconnection. After `connect()` and a transport error (no `open` ever fired,
so no connection was ever established), the error handler itself schedules
nothing and rejects the waiters — but the `close` event that a failed
transport also fires runs the `onclose` handler, which schedules a 1000 ms
reconnection attempt, contradicting that automatic reconnection is never
triggered by a failed explicit `connect()` call. -/
theorem failed_connect_close_schedules_retry :
    (runEv init0 [.connectCall, .errorFires]).pendingTimers = [] ∧
    settled (runEv init0 [.connectCall, .errorFires]) 0 = some false ∧
    (runEv init0 [.connectCall, .errorFires, .closeFires]).pendingTimers =
      [1000] ∧
    (runEv init0 [.connectCall, .errorFires, .closeFires,
      .timerFires]).transportsCreated = 2 :=
  ⟨rfl, rfl, rfl, rfl⟩

/-- Claim C4, amended: when transport establishment fails, the error handler
fails all current waiters with the connection error and does not itself
schedule any retry or create any transport; however the transport close
event, which also fires when establishment fails, unconditionally runs the
reconnect policy, so below the attempt ceiling a reconnection is scheduled
after a failed explicit `connect()` call as well — automatic reconnection is
triggered by any transport close, not only by the close of an established
connection. -/
theorem establishment_error_rejects_waiters (s : SvcState) (sk : Sock)
    (hsk : s.socket = some sk)
    (hfresh : s.settlements.any (fun e => e.1 == sk.promiseId) = false) :
    (stepEv s .errorFires).pendingTimers = s.pendingTimers ∧
    (stepEv s .errorFires).transportsCreated = s.transportsCreated ∧
    settled (stepEv s .errorFires) sk.promiseId = some false ∧
    (s.closeable > 0 → s.reconnectAttempts < maxReconnectAttempts →
      (stepEv (stepEv s .errorFires) .closeFires).pendingTimers =
        s.pendingTimers ++ [reconnectDelay * (s.reconnectAttempts + 1)]) := by
  refine ⟨?_, ?_, ?_, ?_⟩
  · simp only [stepEv, hsk, settle]
    split <;> rfl
  · simp only [stepEv, hsk, settle]
    split <;> rfl
  · simp only [stepEv, hsk]
    exact settled_settle_fresh _ sk.promiseId false hfresh
  · intro hc ha
    simp only [stepEv, hsk, settle, hfresh, Bool.false_eq_true, if_false]
    simp [attemptReconnect, hc, ha]

/-- Witness for C4 (amended) at the concrete state produced by a first
`connect()` call on a fresh service. -/
theorem establishment_error_rejects_waiters_witness :
    settled (stepEv (connect init0).1 .errorFires) 0 = some false ∧
    (stepEv (stepEv (connect init0).1 .errorFires) .closeFires).pendingTimers
      = [1000] :=
  ⟨(establishment_error_rejects_waiters (connect init0).1 ⟨0, 0⟩ rfl
      rfl).2.2.1,
   (establishment_error_rejects_waiters (connect init0).1 ⟨0, 0⟩ rfl
      rfl).2.2.2 (by decide) (by decide)⟩

/-- Claim C5: each unexpected transport close below the attempt ceiling
increments the attempt counter first and schedules a reconnection with delay
`reconnectDelay * attempt` computed from the incremented counter, so
consecutive failing cycles schedule delays 1000, 2000, …, 5000 linearly; once
the incremented counter would exceed the ceiling of 5 no further attempt is
scheduled (the sixth consecutive close schedules nothing); and the counter
resets to 0 on every successful open. -/
theorem backoff_linear_and_capped (s : SvcState) :
    (s.reconnectAttempts < maxReconnectAttempts →
      attemptReconnect s =
        { s with
            reconnectAttempts := s.reconnectAttempts + 1
            pendingTimers := s.pendingTimers ++
              [reconnectDelay * (s.reconnectAttempts + 1)] }) ∧
    (maxReconnectAttempts ≤ s.reconnectAttempts →
      attemptReconnect s = s) ∧
    (∀ sk, s.socket = some sk →
      (stepEv s .openFires).reconnectAttempts = 0) ∧
    (s.closeable > 0 → s.reconnectAttempts < maxReconnectAttempts →
      (stepEv s .closeFires).reconnectAttempts = s.reconnectAttempts + 1 ∧
      (stepEv s .closeFires).pendingTimers = s.pendingTimers ++
        [reconnectDelay * (s.reconnectAttempts + 1)]) ∧
    (runEv init0 [.connectCall, .openFires, .closeFires]).pendingTimers
      = [1000] ∧
    (runEv init0 [.connectCall, .openFires, .closeFires, .timerFires,
      .closeFires]).pendingTimers = [2000] ∧
    (runEv init0 [.connectCall, .openFires, .closeFires, .timerFires,
      .closeFires, .timerFires, .closeFires, .timerFires, .closeFires,
      .timerFires, .closeFires]).pendingTimers = [5000] ∧
    (runEv init0 [.connectCall, .openFires, .closeFires, .timerFires,
      .closeFires, .timerFires, .closeFires, .timerFires, .closeFires,
      .timerFires, .closeFires, .timerFires, .closeFires]).pendingTimers
      = [] := by
  refine ⟨fun h => ?_, fun h => ?_, fun sk hsk => ?_, fun hc ha => ?_,
    rfl, rfl, rfl, rfl⟩
  · simp [attemptReconnect, h]
  · simp [attemptReconnect, Nat.not_lt.mpr h]
  · simp only [stepEv, hsk, settle]
    split <;> rfl
  · constructor <;>
      simp [stepEv, hc, attemptReconnect, ha]

/-- Witness for C5 at concrete counter values 2 (schedules at 3000 ms), 5
(ceiling reached, nothing scheduled) and a concrete open event. -/
theorem backoff_linear_and_capped_witness :
    (attemptReconnect { init0 with reconnectAttempts := 2 }).pendingTimers
      = [3000] ∧
    attemptReconnect { init0 with reconnectAttempts := 5 } =
      { init0 with reconnectAttempts := 5 } ∧
    (stepEv { init0 with socket := some ⟨1, 0⟩, reconnectAttempts := 4 }
      .openFires).reconnectAttempts = 0 := by
  refine ⟨?_, ?_, ?_⟩
  · rw [(backoff_linear_and_capped { init0 with reconnectAttempts := 2 }).1
      (by decide)]
    rfl
  · exact (backoff_linear_and_capped { init0 with reconnectAttempts := 5
      }).2.1 (by decide)
  · exact (backoff_linear_and_capped { init0 with
      socket := some ⟨1, 0⟩, reconnectAttempts := 4 }).2.2.1 ⟨1, 0⟩ rfl

/-- Claim C3: an inbound `content_update` sets the origin flag, replaces the
buffer text with the message content, and schedules the bounded-delay clear
of the flag (the pending timeout, when it fires, sets the flag back to
false); every buffer change event handled while the origin flag is true
produces no outbound message whatever the connection state; hence the echo
change event of a just-applied remote update — handled while the flag is
still set, before the clear timeout fires — never triggers an outbound
`content_update`. -/
theorem remote_update_sets_flag_and_suppresses_echo (s : EdState)
    (m : WSMessage) (conn : Bool) (nc : String)
    (hm : m.type = MsgType.content_update) :
    (handleWebSocketMessage s m).isRemoteUpdate = true ∧
    (handleWebSocketMessage s m).content = m.content ∧
    (handleWebSocketMessage s m).clearFlagTimers = s.clearFlagTimers + 1 ∧
    (clearFlagFires (handleWebSocketMessage s m)).isRemoteUpdate = false ∧
    (∀ t : EdState, t.isRemoteUpdate = true →
      (handleContentChange t conn nc).2 = none) ∧
    (handleContentChange (handleWebSocketMessage s m) conn nc).2 = none := by
  have hsupp : ∀ t : EdState, t.isRemoteUpdate = true →
      (handleContentChange t conn nc).2 = none := by
    intro t ht
    simp [handleContentChange, ht]
  refine ⟨?_, ?_, ?_, ?_, hsupp, hsupp (handleWebSocketMessage s m) ?_⟩ <;>
    simp [handleWebSocketMessage, hm, clearFlagFires]

/-- Witness for C3: a concrete remote update followed by its echo change
event on a connected editor produces no outbound message. -/
theorem remote_update_sets_flag_and_suppresses_echo_witness :
    (handleWebSocketMessage edInit
      ⟨MsgType.content_update, "remote text", 0⟩).isRemoteUpdate = true ∧
    (handleContentChange (handleWebSocketMessage edInit
      ⟨MsgType.content_update, "remote text", 0⟩) true "remote text").2
      = none :=
  ⟨(remote_update_sets_flag_and_suppresses_echo edInit
      ⟨MsgType.content_update, "remote text", 0⟩ true "remote text" rfl).1,
   (remote_update_sets_flag_and_suppresses_echo edInit
      ⟨MsgType.content_update, "remote text", 0⟩ true "remote text"
      rfl).2.2.2.2.2⟩

/-- Claim C2: for every number `n ≥ 1` of `connect()` calls arriving while no
connection is open and no attempt is in flight, exactly one underlying
transport object is created, the first caller creates it and every later
caller joins the same pending promise (so no duplicate establishment attempt
is ever in flight), and all callers share the same outcome: a transport open
resolves the shared promise and a transport error rejects it. -/
theorem concurrent_connect_single_transport (s : SvcState) (n : Nat)
    (hconn : isConnected s = false)
    (hp : s.connectionPromise = none)
    (hn : 1 ≤ n)
    (hfresh : s.settlements.any (fun e => e.1 == s.nextPromiseId) = false) :
    (connectN s n).1.transportsCreated = s.transportsCreated + 1 ∧
    (connectN s n).2 =
      ConnectResult.created s.nextPromiseId ::
        List.replicate (n - 1) (ConnectResult.joined s.nextPromiseId) ∧
    (connectN s n).1.connectionPromise = some s.nextPromiseId ∧
    settled (stepEv (connectN s n).1 .openFires) s.nextPromiseId
      = some true ∧
    settled (stepEv (connectN s n).1 .errorFires) s.nextPromiseId
      = some false := by
  obtain ⟨m, rfl⟩ : ∃ m, n = m + 1 := ⟨n - 1, by omega⟩
  have hcs : connect s =
      ({ s with
          socket := some ⟨wsCONNECTING, s.nextPromiseId⟩
          connectionPromise := some s.nextPromiseId
          nextPromiseId := s.nextPromiseId + 1
          transportsCreated := s.transportsCreated + 1
          closeable := s.closeable + 1 }, .created s.nextPromiseId) := by
    simp [connect, hconn, hp]
  have hrest := connectN_joined m
    { s with
        socket := some ⟨wsCONNECTING, s.nextPromiseId⟩
        connectionPromise := some s.nextPromiseId
        nextPromiseId := s.nextPromiseId + 1
        transportsCreated := s.transportsCreated + 1
        closeable := s.closeable + 1 } s.nextPromiseId rfl rfl
  have hN : connectN s (m + 1) =
      ({ s with
          socket := some ⟨wsCONNECTING, s.nextPromiseId⟩
          connectionPromise := some s.nextPromiseId
          nextPromiseId := s.nextPromiseId + 1
          transportsCreated := s.transportsCreated + 1
          closeable := s.closeable + 1 },
        ConnectResult.created s.nextPromiseId ::
          List.replicate m (ConnectResult.joined s.nextPromiseId)) := by
    simp [connectN, hcs, hrest]
  rw [hN]
  refine ⟨rfl, by simp, rfl, ?_, ?_⟩
  · exact settled_settle_fresh _ s.nextPromiseId true hfresh
  · exact settled_settle_fresh _ s.nextPromiseId false hfresh

/-- Witness for C2: two back-to-back `connect()` calls on a fresh service
create one transport, return one created and one joined result on the same
promise, and that promise resolves on the subsequent open. -/
theorem concurrent_connect_single_transport_witness :
    (connectN init0 2).1.transportsCreated = 1 ∧
    (connectN init0 2).2 =
      [ConnectResult.created 0, ConnectResult.joined 0] ∧
    settled (stepEv (connectN init0 2).1 .openFires) 0 = some true := by
  have h := concurrent_connect_single_transport init0 2 rfl rfl
    (by decide) rfl
  exact ⟨h.1, by simpa using h.2.1, h.2.2.2.1⟩

end RealtimeEditor
